import Mathlib

/-!
Shallow embedding of the local-llm HTTP proxy (final TypeScript server,
`src/server.ts`): the `POST /api/chat` handler (validation, turn
normalization, adapter call construction, catch-clause error
classification), the `GET /api/models` reshaping, and the route
dispatch with the CORS preflight short-circuit, together with theorems
settling the specification claims about them.
-/

namespace LocalLLM

/-- Whether the character list `needle` is an initial segment of `hay`. -/
def charsStartWith : List Char → List Char → Bool
  | [], _ => true
  | _ :: _, [] => false
  | a :: as, b :: bs => a == b && charsStartWith as bs

/-- Whether the character list `needle` occurs contiguously inside `hay`. -/
def charsContain (needle : List Char) : List Char → Bool
  | [] => charsStartWith needle []
  | c :: rest => charsStartWith needle (c :: rest) || charsContain needle rest

/-- JavaScript `String.prototype.includes`: `strIncludes s sub` is true
when `sub` occurs as a contiguous substring of `s`. -/
def strIncludes (s sub : String) : Bool :=
  charsContain sub.toList s.toList

/-- One conversation turn, `{ role, content }` in the request body and in
the adapter call (`ChatRequestBody.messages` element type in `server.ts`). -/
structure ChatMessage where
  role : String
  content : String
deriving DecidableEq

/-- The parsed JSON body of a `POST /api/chat` request (`ChatRequestBody`
in `server.ts`). `none` models an absent field. -/
structure ChatRequestBody where
  message : Option String := none
  messages : Option (List ChatMessage) := none
  model : Option String := none
  stream : Option Bool := none
  system : Option String := none
deriving DecidableEq

/-- The argument record passed to `ollama.chat` by the handler. -/
structure AdapterCall where
  model : String
  messages : List ChatMessage
  stream : Bool
deriving DecidableEq

/-- JavaScript truthiness of an optional string field: absent (`undefined`)
and the empty string are falsy, every other string is truthy. -/
def strTruthy : Option String → Bool
  | none => false
  | some s => !(s == "")

/-- JavaScript truthiness of an optional array field: absent is falsy, any
array (including the empty array) is truthy. -/
def arrTruthy : Option (List ChatMessage) → Bool
  | none => false
  | some _ => true

/-- The `chatMessages` normalization in the `POST /api/chat` handler:
`if (messages && Array.isArray(messages)) chatMessages = messages;
else if (message) chatMessages = [{ role: "user", content: message }]`,
starting from the empty array. -/
def chatMessages (body : ChatRequestBody) : List ChatMessage :=
  match body.messages with
  | some ms => ms
  | none =>
    match body.message with
    | some m => if m == "" then [] else [{ role := "user", content := m }]
    | none => []

/-- What the `POST /api/chat` handler does before the adapter responds:
either it rejects the body with a 400 response (and `ollama.chat` is never
invoked), or it invokes `ollama.chat` with a specific argument record. -/
inductive ChatHandlerResult where
  | rejected (status : Nat) (success : Bool) (error : String)
  | invoked (call : AdapterCall)
deriving DecidableEq

/-- The validation and adapter-call construction of the `POST /api/chat`
handler (`server.ts` final version): destructures
`{ message, model = "llama3.1", messages }`, returns 400 when
`!message && !messages`, and otherwise calls `ollama.chat` with
`{ model, messages: chatMessages, stream: false }`. -/
def postChatDispatch (body : ChatRequestBody) : ChatHandlerResult :=
  if !strTruthy body.message && !arrTruthy body.messages then
    .rejected 400 false "Missing required field: message or messages"
  else
    .invoked { model := body.model.getD "llama3.1", messages := chatMessages body, stream := false }

/-- A JSON error response sent from the catch clause of `POST /api/chat`:
HTTP status plus the `success`, `error` and `message` body fields. -/
structure ChatErrorResponse where
  status : Nat
  success : Bool
  error : String
  message : String
deriving DecidableEq

/-- The catch clause of the `POST /api/chat` handler: classifies the
adapter failure by substring inspection of its message text.
Connection keywords are checked first, then `"model"`, else 500. -/
def chatCatchHandler (errorMessage : String) : ChatErrorResponse :=
  if strIncludes errorMessage "connect" || strIncludes errorMessage "ECONNREFUSED"
      || strIncludes errorMessage "fetch failed" then
    { status := 503, success := false, error := "Ollama service unavailable",
      message := "Could not connect to Ollama. Make sure Ollama is running and accessible." }
  else if strIncludes errorMessage "model" then
    { status := 404, success := false, error := "Model not found", message := errorMessage }
  else
    { status := 500, success := false, error := "Error calling Ollama",
      message := if errorMessage == "" then "Unknown error occurred" else errorMessage }

/-- A model descriptor as it appears both in the adapter `list()` result and
in the `GET /api/models` response body (`ModelsResponse` in `server.ts`). -/
structure ModelDescriptor where
  name : String
  modified_at : Option String := none
  size : Option Nat := none
  digest : Option String := none
deriving DecidableEq

/-- The per-descriptor timestamp reshaping of the `GET /api/models` handler:
`model.modified_at ? new Date(model.modified_at).toISOString() : undefined`,
where `toISO` stands for the external `new Date(·).toISOString()` operation
and a falsy timestamp (absent or empty string) is left `undefined`. -/
def normalizeModifiedAt (toISO : String → String) : Option String → Option String
  | none => none
  | some s => if s == "" then none else some (toISO s)

/-- The success branch of the `GET /api/models` handler: maps
`response.models || []` element by element, copying `name`, `size` and
`digest` verbatim and reshaping `modified_at` through `toISO`. -/
def getModelsHandler (toISO : String → String) (models : Option (List ModelDescriptor)) :
    List ModelDescriptor :=
  (models.getD []).map fun model =>
    { name := model.name,
      modified_at := normalizeModifiedAt toISO model.modified_at,
      size := model.size,
      digest := model.digest }

/-- An incoming HTTP request, reduced to the two fields the routing and the
404 handler inspect: `req.method` and `req.path`. -/
structure HttpRequest where
  method : String
  path : String
deriving DecidableEq

/-- Which piece of the server handles a request: the CORS middleware
preflight short-circuit, one of the three registered routes, or the final
404 handler with its response fields. -/
inductive RouteOutcome where
  | corsPreflight
  | health
  | chat
  | models
  | notFound (status : Nat) (success : Bool) (error : String) (message : String)
deriving DecidableEq

/-- The dispatch order of the final server: the CORS middleware answers
every `OPTIONS` request with 200 before any route; then
`GET /health`, `POST /api/chat` and `GET /api/models` (Express also serves
`HEAD` through `app.get` routes); every other request falls through to the
404 handler with `Route <method> <path> not found`. -/
def routeRequest (req : HttpRequest) : RouteOutcome :=
  if req.method = "OPTIONS" then .corsPreflight
  else if (req.method = "GET" ∨ req.method = "HEAD") ∧ req.path = "/health" then .health
  else if req.method = "POST" ∧ req.path = "/api/chat" then .chat
  else if (req.method = "GET" ∨ req.method = "HEAD") ∧ req.path = "/api/models" then .models
  else .notFound 404 false "Not found" ("Route " ++ req.method ++ " " ++ req.path ++ " not found")

/-! ## Claims -/

/-- Claim C1, counterexample: a body with no `message` and `messages` set to
the empty array has both fields absent or empty, yet the handler does not
return the 400 rejection — the empty array is truthy, so validation passes
and the adapter is invoked. -/
theorem chat_validation_empty_array_counterexample :
    (({ messages := some [] } : ChatRequestBody).message = none ∨
      ({ messages := some [] } : ChatRequestBody).message = some "") ∧
    (({ messages := some [] } : ChatRequestBody).messages = none ∨
      ({ messages := some [] } : ChatRequestBody).messages = some []) ∧
    postChatDispatch { messages := some [] } ≠
      .rejected 400 false "Missing required field: message or messages" := by
  refine ⟨Or.inl rfl, Or.inr rfl, ?_⟩
  decide

/-- Claim C1, amended: for every body in which `message` is absent or empty
and `messages` is absent, the handler returns the 400 rejection with the
fixed missing-field error, and the adapter is never invoked. -/
theorem chat_missing_fields_rejected_400 (body : ChatRequestBody)
    (hm : body.message = none ∨ body.message = some "")
    (hms : body.messages = none) :
    postChatDispatch body =
      .rejected 400 false "Missing required field: message or messages" := by
  rcases hm with hm | hm <;>
    simp [postChatDispatch, strTruthy, arrTruthy, hm, hms]

/-- Claim C1, witness for the amended theorem at the empty body. -/
theorem chat_missing_fields_rejected_400_witness :
    (({} : ChatRequestBody).message = none ∨ ({} : ChatRequestBody).message = some "") ∧
    ({} : ChatRequestBody).messages = none ∧
    postChatDispatch {} =
      .rejected 400 false "Missing required field: message or messages" :=
  ⟨Or.inl rfl, rfl, chat_missing_fields_rejected_400 {} (Or.inl rfl) rfl⟩

/-- Claim C2: for every body with a non-empty `messages` array, the handler
invokes the adapter and the turn sequence passed to it is exactly that
array, unchanged in content and order. -/
theorem chat_messages_array_forwarded_verbatim (body : ChatRequestBody)
    (ms : List ChatMessage) (hms : body.messages = some ms) (_hne : ms ≠ []) :
    postChatDispatch body =
      .invoked { model := body.model.getD "llama3.1", messages := ms, stream := false } := by
  simp [postChatDispatch, chatMessages, strTruthy, arrTruthy, hms]

/-- Claim C2, witness at a concrete two-turn history. -/
theorem chat_messages_array_forwarded_verbatim_witness :
    ({ messages := some [{ role := "user", content := "hi" },
        { role := "assistant", content := "hello" }] } : ChatRequestBody).messages =
      some [{ role := "user", content := "hi" }, { role := "assistant", content := "hello" }] ∧
    ([{ role := "user", content := "hi" },
      { role := "assistant", content := "hello" }] : List ChatMessage) ≠ [] ∧
    postChatDispatch { messages := some [{ role := "user", content := "hi" },
        { role := "assistant", content := "hello" }] } =
      .invoked { model := "llama3.1",
                 messages := [{ role := "user", content := "hi" },
                              { role := "assistant", content := "hello" }],
                 stream := false } :=
  ⟨rfl, by decide,
    chat_messages_array_forwarded_verbatim _ _ rfl (by decide)⟩

/-- Claim C3: for every body with a truthy `message` and no `messages`
field, the handler invokes the adapter with exactly one turn, of role
`user`, whose content is the request message. -/
theorem chat_single_message_wrapped (body : ChatRequestBody) (m : String)
    (hm : body.message = some m) (hne : m ≠ "") (hms : body.messages = none) :
    postChatDispatch body =
      .invoked { model := body.model.getD "llama3.1",
                 messages := [{ role := "user", content := m }], stream := false } := by
  simp [postChatDispatch, chatMessages, strTruthy, arrTruthy, hm, hms, hne]

/-- Claim C3, witness at the body `{ message: "hi" }`. -/
theorem chat_single_message_wrapped_witness :
    ({ message := some "hi" } : ChatRequestBody).message = some "hi" ∧
    "hi" ≠ "" ∧
    ({ message := some "hi" } : ChatRequestBody).messages = none ∧
    postChatDispatch { message := some "hi" } =
      .invoked { model := "llama3.1",
                 messages := [{ role := "user", content := "hi" }], stream := false } :=
  ⟨rfl, by decide, rfl,
    chat_single_message_wrapped _ _ rfl (by decide) rfl⟩

/-- Claim C9: a body with no `message` field and `messages` set to the
empty array passes validation — the empty array is truthy — and the
adapter is invoked with an empty turn sequence. -/
theorem chat_empty_messages_array_invokes_adapter (model : Option String)
    (stream : Option Bool) (sys : Option String) :
    postChatDispatch
        { message := none, messages := some [], model := model,
          stream := stream, system := sys } =
      .invoked { model := model.getD "llama3.1", messages := [], stream := false } := rfl

/-- Claim C4: whenever the handler reaches the adapter call, streaming is
disabled in the call, and a body differing only in its `stream` flag
produces the identical adapter call — the handler never reads `stream`. -/
theorem chat_stream_forced_off (body : ChatRequestBody) (s : Option Bool)
    (call : AdapterCall) (h : postChatDispatch body = .invoked call) :
    call.stream = false ∧ postChatDispatch { body with stream := s } = .invoked call := by
  have hsame : postChatDispatch { body with stream := s } = postChatDispatch body := rfl
  refine ⟨?_, hsame.trans h⟩
  unfold postChatDispatch at h
  split at h
  · exact absurd h (by simp)
  · injection h with h2
    rw [← h2]

/-- Claim C4, witness: the body `{ message: "hi", stream: true }` yields the
same adapter call as `{ message: "hi" }`, with streaming disabled. -/
theorem chat_stream_forced_off_witness :
    postChatDispatch { message := some "hi" } =
      .invoked { model := "llama3.1",
                 messages := [{ role := "user", content := "hi" }], stream := false } ∧
    (({ model := "llama3.1",
        messages := [{ role := "user", content := "hi" }],
        stream := false } : AdapterCall).stream = false ∧
      postChatDispatch { message := some "hi", stream := some true } =
        .invoked { model := "llama3.1",
                   messages := [{ role := "user", content := "hi" }], stream := false }) :=
  ⟨rfl, chat_stream_forced_off { message := some "hi" } (some true) _ rfl⟩

/-- Claim C5: an adapter failure whose message contains `connect`,
`ECONNREFUSED` or `fetch failed` is answered with status 503,
`success: false` and `error: "Ollama service unavailable"`. -/
theorem chat_connection_error_503 (msg : String)
    (h : strIncludes msg "connect" = true ∨ strIncludes msg "ECONNREFUSED" = true ∨
      strIncludes msg "fetch failed" = true) :
    (chatCatchHandler msg).status = 503 ∧ (chatCatchHandler msg).success = false ∧
      (chatCatchHandler msg).error = "Ollama service unavailable" := by
  rcases h with h | h | h <;> simp [chatCatchHandler, h]

/-- Claim C5, witness at the raw message `ECONNREFUSED`. -/
theorem chat_connection_error_503_witness :
    (strIncludes "ECONNREFUSED" "connect" = true ∨
      strIncludes "ECONNREFUSED" "ECONNREFUSED" = true ∨
      strIncludes "ECONNREFUSED" "fetch failed" = true) ∧
    ((chatCatchHandler "ECONNREFUSED").status = 503 ∧
      (chatCatchHandler "ECONNREFUSED").success = false ∧
      (chatCatchHandler "ECONNREFUSED").error = "Ollama service unavailable") :=
  ⟨Or.inr (Or.inl (by decide)),
    chat_connection_error_503 "ECONNREFUSED" (Or.inr (Or.inl (by decide)))⟩

/-- Claim C6: an adapter failure whose message contains `model` but none of
the connection keywords — which are checked first — is answered with
status 404, `error: "Model not found"` and the raw message. -/
theorem chat_model_error_404 (msg : String)
    (hm : strIncludes msg "model" = true)
    (hc : strIncludes msg "connect" = false)
    (he : strIncludes msg "ECONNREFUSED" = false)
    (hf : strIncludes msg "fetch failed" = false) :
    chatCatchHandler msg =
      { status := 404, success := false, error := "Model not found", message := msg } := by
  simp [chatCatchHandler, hm, hc, he, hf]

/-- Claim C6, witness at the raw message `model llamaX missing`. -/
theorem chat_model_error_404_witness :
    strIncludes "model llamaX missing" "model" = true ∧
    strIncludes "model llamaX missing" "connect" = false ∧
    strIncludes "model llamaX missing" "ECONNREFUSED" = false ∧
    strIncludes "model llamaX missing" "fetch failed" = false ∧
    chatCatchHandler "model llamaX missing" =
      { status := 404, success := false, error := "Model not found",
        message := "model llamaX missing" } :=
  ⟨by decide, by decide, by decide, by decide,
    chat_model_error_404 _ (by decide) (by decide) (by decide) (by decide)⟩

/-- Claim C7: the `system` field is never forwarded — two bodies differing
only in `system` lead the handler to the very same outcome, rejection or
adapter call alike. -/
theorem chat_system_never_forwarded (body : ChatRequestBody) (s : Option String) :
    postChatDispatch { body with system := s } = postChatDispatch body := rfl

/-- Claim C8: `GET /api/models` returns one descriptor per adapter
descriptor, in the same order, with `name`, `size` and `digest` copied
verbatim and only `modified_at` reshaped through the timestamp
normalization. -/
theorem models_reshape_preserves_fields (toISO : String → String)
    (models : List ModelDescriptor) :
    List.Forall₂
      (fun out src => out.name = src.name ∧ out.size = src.size ∧
        out.digest = src.digest ∧
        out.modified_at = normalizeModifiedAt toISO src.modified_at)
      (getModelsHandler toISO (some models)) models := by
  induction models with
  | nil => exact List.Forall₂.nil
  | cons m rest ih => exact List.Forall₂.cons ⟨rfl, rfl, rfl, rfl⟩ ih

/-- Claim C10: a request that is not an `OPTIONS` preflight and matches no
registered route falls through to the 404 handler, whose body names the
method and path of the request. -/
theorem unmatched_route_404 (req : HttpRequest)
    (hopt : ¬req.method = "OPTIONS")
    (hhealth : ¬((req.method = "GET" ∨ req.method = "HEAD") ∧ req.path = "/health"))
    (hchat : ¬(req.method = "POST" ∧ req.path = "/api/chat"))
    (hmodels : ¬((req.method = "GET" ∨ req.method = "HEAD") ∧ req.path = "/api/models")) :
    routeRequest req =
      .notFound 404 false "Not found"
        ("Route " ++ req.method ++ " " ++ req.path ++ " not found") := by
  unfold routeRequest
  rw [if_neg hopt, if_neg hhealth, if_neg hchat, if_neg hmodels]

/-- Claim C10, witness at `DELETE /api/chat`, a path that is registered but
only for `POST`. -/
theorem unmatched_route_404_witness :
    ¬("DELETE" : String) = "OPTIONS" ∧
    ¬((("DELETE" : String) = "GET" ∨ ("DELETE" : String) = "HEAD") ∧
      ("/api/chat" : String) = "/health") ∧
    ¬(("DELETE" : String) = "POST" ∧ ("/api/chat" : String) = "/api/chat") ∧
    ¬((("DELETE" : String) = "GET" ∨ ("DELETE" : String) = "HEAD") ∧
      ("/api/chat" : String) = "/api/models") ∧
    routeRequest { method := "DELETE", path := "/api/chat" } =
      .notFound 404 false "Not found"
        ("Route " ++ "DELETE" ++ " " ++ "/api/chat" ++ " not found") :=
  ⟨by decide, by decide, by decide, by decide,
    unmatched_route_404 { method := "DELETE", path := "/api/chat" }
      (by decide) (by decide) (by decide) (by decide)⟩

end LocalLLM
